import Mathlib

/-!
Shallow embedding of the core logic of the parser-with-apify repository:
the article extractor (src/utils/article-extractor.ts), the metric-id
generator (src/utils/id-generator.ts), the account due-check filter
(src/services/metrics-collector.service.ts), and the aggregation and
fact-upsert logic of src/services/google-sheets.service.ts.

JavaScript strings are modelled as Lean String (lists of characters),
JS Date values as non-negative millisecond timestamps (Nat, with the
local timezone taken as UTC), possibly-undefined values as Option, and
a thrown TypeError as the error branch of Except.  NaN produced by
parseInt is modelled as the none branch of Option Int.
-/

/-! ## Character and string utilities mirroring JS semantics -/

def isDigitC (c : Char) : Bool := decide ('0' ≤ c) && decide (c ≤ '9')

def isUpperAZ (c : Char) : Bool := decide ('A' ≤ c) && decide (c ≤ 'Z')

def isLowerAZ (c : Char) : Bool := decide ('a' ≤ c) && decide (c ≤ 'z')

def isAlnumAscii (c : Char) : Bool := isUpperAZ c || isLowerAZ c || isDigitC c

/-- Word characters for the JS regex word-boundary assertion: [A-Za-z0-9_]. -/
def isWordChar (c : Char) : Bool := isAlnumAscii c || c = '_'

/-- Whitespace as matched by the JS regex class backslash-s (ASCII part). -/
def isJsSpace (c : Char) : Bool :=
  c = ' ' || c = '\t' || c = '\n' || c = '\r' || c = '\x0b' || c = '\x0c'

/-- String.prototype.toLowerCase restricted to ASCII letters and the basic
Cyrillic uppercase range used by the extractor's label vocabulary. -/
def jsLowerChar (c : Char) : Char :=
  if isUpperAZ c then Char.ofNat (c.toNat + 32)
  else if decide ('А' ≤ c) && decide (c ≤ 'Я') then Char.ofNat (c.toNat + 32)
  else c

/-- String.prototype.toUpperCase restricted to ASCII letters and the basic
Cyrillic lowercase range. -/
def jsUpperChar (c : Char) : Char :=
  if isLowerAZ c then Char.ofNat (c.toNat - 32)
  else if decide ('а' ≤ c) && decide (c ≤ 'я') then Char.ofNat (c.toNat - 32)
  else c

def toLowerStr (s : String) : String := String.mk (s.data.map jsLowerChar)

/-- Whether the character list pat is an initial segment of text. -/
def leadsWith : List Char → List Char → Bool
  | [], _ => true
  | _ :: _, [] => false
  | p :: ps, t :: ts => p == t && leadsWith ps ts

/-- String.prototype.includes on character lists. -/
def containsSub : List Char → List Char → Bool
  | text, pat =>
    if leadsWith pat text then true
    else match text with
      | [] => false
      | _ :: ts => containsSub ts pat

def jsIncludes (s sub : String) : Bool := containsSub s.data sub.data

/-- String.prototype.split with a single-character separator. -/
def splitChar (sep : Char) : List Char → List (List Char)
  | [] => [[]]
  | c :: cs =>
    let r := splitChar sep cs
    if c == sep then [] :: r
    else match r with
      | h :: t => (c :: h) :: t
      | [] => [[c]]

/-- String.prototype.trim on a character list. -/
def trimC (s : List Char) : List Char :=
  ((s.dropWhile isJsSpace).reverse.dropWhile isJsSpace).reverse

instance {e a : Type} [DecidableEq e] [DecidableEq a] :
    DecidableEq (Except e a) := fun x y =>
  match x, y with
  | Except.error v, Except.error w =>
    if h : v = w then Decidable.isTrue (by rw [h])
    else Decidable.isFalse (fun hc => h (by injection hc))
  | Except.ok v, Except.ok w =>
    if h : v = w then Decidable.isTrue (by rw [h])
    else Decidable.isFalse (fun hc => h (by injection hc))
  | Except.error _, Except.ok _ =>
    Decidable.isFalse (fun hc => Except.noConfusion hc)
  | Except.ok _, Except.error _ =>
    Decidable.isFalse (fun hc => Except.noConfusion hc)

/-- Truthiness of a JS string-or-undefined value. -/
def truthyS : Option String → Bool
  | none => false
  | some s => s ≠ ""

/-- parseInt with no explicit radix: leading JS whitespace is skipped, an
optional sign is read, a 0x/0X prefix selects hexadecimal, and the longest
leading digit run is converted; no digits yields NaN (modelled as none). -/
def jsParseInt (s : String) : Option Int :=
  let cs := s.data.dropWhile isJsSpace
  let signed : Bool × List Char :=
    match cs with
    | '-' :: r => (true, r)
    | '+' :: r => (false, r)
    | r => (false, r)
  let neg := signed.1
  let body := signed.2
  let isHexDigit : Char → Bool := fun c =>
    isDigitC c || (decide ('a' ≤ c) && decide (c ≤ 'f')) ||
      (decide ('A' ≤ c) && decide (c ≤ 'F'))
  let hexVal : Char → Nat := fun c =>
    if isDigitC c then c.toNat - 48
    else if decide ('a' ≤ c) then c.toNat - 87
    else c.toNat - 55
  let finish : Nat → Option Int := fun v =>
    some (if neg then -(v : Int) else (v : Int))
  match body with
  | '0' :: x :: r =>
    if x == 'x' || x == 'X' then
      let hs := r.takeWhile isHexDigit
      if hs.isEmpty then none
      else finish (hs.foldl (fun acc c => acc * 16 + hexVal c) 0)
    else
      let ds := body.takeWhile isDigitC
      finish (ds.foldl (fun acc c => acc * 10 + (c.toNat - 48)) 0)
  | _ =>
    let ds := body.takeWhile isDigitC
    if ds.isEmpty then none
    else finish (ds.foldl (fun acc c => acc * 10 + (c.toNat - 48)) 0)

/-! ## Identity key generator (src/utils/id-generator.ts) -/

/-- First three alphanumeric characters of the account name, uppercased;
the string XXX only when no alphanumeric character remains (the JS
fallback fires on the empty string only, since any non-empty string is
truthy). -/
def firstThreeOf (accountName : String) : String :=
  let cleanAccountName := accountName.data.filter isAlnumAscii
  let firstThree := String.mk ((cleanAccountName.take 3).map jsUpperChar)
  if firstThree = "" then "XXX" else firstThree

/-- Replace each comma together with any following whitespace by a hyphen
(the /,\s*/g replacement), driven by fuel for termination. -/
def replCommaWsAux : Nat → List Char → List Char
  | 0, _ => []
  | _ + 1, [] => []
  | f + 1, c :: cs =>
    if c == ',' then '-' :: replCommaWsAux f (cs.dropWhile isJsSpace)
    else c :: replCommaWsAux f cs

/-- Collapse each whitespace run into a single hyphen (the /\s+/g
replacement); the flag records whether the previous character was space. -/
def wsRunToHyphen : Bool → List Char → List Char
  | _, [] => []
  | prevSpace, c :: cs =>
    if isJsSpace c then
      if prevSpace then wsRunToHyphen true cs
      else '-' :: wsRunToHyphen true cs
    else c :: wsRunToHyphen false cs

def cleanArticleStr (article : String) : String :=
  let s1 := replCommaWsAux (article.data.length + 1) article.data
  let s2 := wsRunToHyphen false s1
  String.mk (s2.filter (fun c => isAlnumAscii c || c = '-'))

def generateMetricId (platform accountName article : String) : String :=
  platform ++ "-" ++ firstThreeOf accountName ++ "-" ++ cleanArticleStr article

/-! ## Article extractor (src/utils/article-extractor.ts)

Each regular expression of the source is embedded as a matcher that, at a
fixed position (given the previous character, for word boundaries), either
fails or returns the captured group and the number of characters the whole
match consumes; a scanner replays matchAll by trying every position from
left to right and resuming after each match. -/

def isWordOpt : Option Char → Bool
  | none => false
  | some c => isWordChar c

/-- Replay of matchAll: at each position try the matcher; on success record
the capture and resume after the match, otherwise advance one character.
Fuel decreases every step and starts above the text length. -/
def scanAll (m : Option Char → List Char → Option (List Char × Nat)) :
    Nat → Option Char → List Char → List (List Char)
  | 0, _, _ => []
  | _ + 1, _, [] => []
  | fuel + 1, prev, c :: rest =>
    match m prev (c :: rest) with
    | some (cap, k) =>
      let consumed := (c :: rest).take k
      cap :: scanAll m fuel consumed.getLast? ((c :: rest).drop k)
    | none => scanAll m fuel (some c) rest

def runMatches (m : Option Char → List Char → Option (List Char × Nat))
    (cs : List Char) : List (List Char) :=
  scanAll m (cs.length + 1) none cs

/-- Try each labelled alternative in order; on a label prefix match the
separator run [:\s]+ and the alphanumeric capture must follow, otherwise
the next alternative is tried (regex alternation with backtracking). -/
def matchLabelList : List (List Char) → List Char → Option (List Char × Nat)
  | [], _ => none
  | lab :: labs, cs =>
    let lcs := cs.map jsLowerChar
    if leadsWith lab lcs then
      let rest := cs.drop lab.length
      let seps := rest.takeWhile (fun c => c == ':' || isJsSpace c)
      if seps.isEmpty then matchLabelList labs cs
      else
        let rest2 := rest.drop seps.length
        let cap := rest2.takeWhile isAlnumAscii
        if cap.isEmpty then matchLabelList labs cs
        else some (cap, lab.length + seps.length + cap.length)
    else matchLabelList labs cs

/-- Pattern 1: a label token followed by [:\s]+ and an alphanumeric capture,
case-insensitively; the alternatives in source order. -/
def matchP1 (_ : Option Char) (cs : List Char) : Option (List Char × Nat) :=
  matchLabelList
    (["артикаль", "артикул", "арт.", "арт", "код", "article", "art", "sku"].map
      String.data) cs

/-- Try each hyphenated-prefix alternative in order; after the prefix a
hyphen and a non-empty alphanumeric run followed by a word boundary are
required. -/
def matchHyphenList : List (List Char) → List Char → Option (List Char × Nat)
  | [], _ => none
  | pre :: pres, cs =>
    let lcs := cs.map jsLowerChar
    if leadsWith pre lcs then
      match cs.drop pre.length with
      | h :: rest2 =>
        if h == '-' then
          let cap := rest2.takeWhile isAlnumAscii
          if cap.isEmpty then matchHyphenList pres cs
          else if isWordOpt (rest2.drop cap.length).head? then
            matchHyphenList pres cs
          else
            some (cs.take (pre.length + 1 + cap.length),
              pre.length + 1 + cap.length)
        else matchHyphenList pres cs
      | [] => matchHyphenList pres cs
    else matchHyphenList pres cs

/-- Pattern 2: word boundary, a recognized prefix, a hyphen, alphanumerics,
word boundary, case-insensitively. -/
def matchP2 (prev : Option Char) (cs : List Char) : Option (List Char × Nat) :=
  match cs with
  | [] => none
  | c :: _ =>
    if isWordOpt prev == isWordChar c then none
    else
      matchHyphenList
        (["art", "sku", "wb", "ww", "www", "wewe", "артикул", "артикул"].map
          String.data) cs

/-- Pattern 3: word boundary, two to four uppercase letters and at least
four digits, word boundary; case-sensitive.  A maximal letter run longer
than four can never match because backtracking always leaves a letter in
front of the digit class. -/
def matchP3 (prev : Option Char) (cs : List Char) : Option (List Char × Nat) :=
  if isWordOpt prev then none
  else
    let ls := cs.takeWhile isUpperAZ
    if ls.length < 2 || 4 < ls.length then none
    else
      let r1 := cs.drop ls.length
      let ds := r1.takeWhile isDigitC
      if ds.length < 4 then none
      else if isWordOpt (r1.drop ds.length).head? then none
      else some (ls ++ ds, ls.length + ds.length)

/-- Pattern 4: an alphanumeric run of length at least four enclosed in
literal parentheses, case-insensitively. -/
def matchP4 (_ : Option Char) (cs : List Char) : Option (List Char × Nat) :=
  match cs with
  | c :: rest =>
    if c == '(' then
      let cap := rest.takeWhile isAlnumAscii
      if cap.length < 4 then none
      else if (rest.drop cap.length).head? == some ')' then
        some (cap, cap.length + 2)
      else none
    else none
  | [] => none

/-- Pattern 5: word boundary, at least six digits, word boundary. -/
def matchP5 (prev : Option Char) (cs : List Char) : Option (List Char × Nat) :=
  if isWordOpt prev then none
  else
    let ds := cs.takeWhile isDigitC
    if ds.length < 6 then none
    else if isWordOpt (cs.drop ds.length).head? then none
    else some (ds, ds.length)

/-- Hashtag pattern: a hash sign followed by an alphanumeric run of length
at least four (the at-least-one-digit filter is applied by the caller). -/
def matchHashtag (_ : Option Char) (cs : List Char) : Option (List Char × Nat) :=
  match cs with
  | c :: rest =>
    if c == '#' then
      let cap := rest.takeWhile isAlnumAscii
      if cap.length < 4 then none else some (cap, cap.length + 1)
    else none
  | [] => none

/-- Fallback: the text begins with an alphanumeric token of length at least
four followed by a whitespace character. -/
def startFallback (cs : List Char) : Option (List Char) :=
  let cap := cs.takeWhile isAlnumAscii
  if cap.length < 4 then none
  else match (cs.drop cap.length).head? with
    | some c => if isJsSpace c then some cap else none
    | none => none

/-- Collapse every whitespace run into a single space (the /\s+/g
replacement of the extractor). -/
def collapseSpacesAux : Bool → List Char → List Char
  | _, [] => []
  | prevSpace, c :: cs =>
    if isJsSpace c then
      if prevSpace then collapseSpacesAux true cs
      else ' ' :: collapseSpacesAux true cs
    else c :: collapseSpacesAux false cs

/-- Insertion-ordered set semantics of the JS Set: keep the first
occurrence of each value. -/
def dedupKeepFirst (seen : List (List Char)) : List (List Char) → List (List Char)
  | [] => []
  | x :: xs =>
    if seen.contains x then dedupKeepFirst seen xs
    else x :: dedupKeepFirst (x :: seen) xs

/-- Array.prototype.join with the two-character separator comma-space. -/
def joinCommaSep : List (List Char) → List Char
  | [] => []
  | [x] => x
  | x :: y :: xs => x ++ ',' :: ' ' :: joinCommaSep (y :: xs)

def normCap (c : List Char) : List Char := (trimC c).map jsUpperChar

/-- extractArticle: empty text yields none; otherwise whitespace is
collapsed and trimmed, the five pattern families and the hashtag pattern
are unioned into an insertion-ordered set of uppercased captures, the
start-of-text fallback fires only when the set is empty, and the set is
joined with comma-space. -/
def extractArticle (text : String) : Option String :=
  if text = "" then none
  else
    let cleanText := trimC (collapseSpacesAux false text.data)
    let caps :=
      runMatches matchP1 cleanText ++ runMatches matchP2 cleanText ++
      runMatches matchP3 cleanText ++ runMatches matchP4 cleanText ++
      runMatches matchP5 cleanText
    let hcaps :=
      ((runMatches matchHashtag cleanText).map normCap).filter
        (fun v => v.any isDigitC)
    let foundArticles := dedupKeepFirst [] (caps.map normCap ++ hcaps)
    let foundArticles :=
      if foundArticles.isEmpty then
        match startFallback cleanText with
        | some cap => [normCap cap]
        | none => []
      else foundArticles
    if foundArticles.isEmpty then none
    else some (String.mk (joinCommaSep foundArticles))

/-- findArticle: try the description first, then the title. -/
def findArticle (description title : String) : Option String :=
  let articleFromDescription := extractArticle description
  if truthyS articleFromDescription then articleFromDescription
  else
    let articleFromTitle := extractArticle title
    if truthyS articleFromTitle then articleFromTitle
    else none

/-! ## Account due-check filter (src/services/metrics-collector.service.ts) -/

structure AccountToTrack where
  platform : String
  accountUrl : Option String
  accountName : Option String
  lastChecked : Option Nat
  dateFrom : Option Nat
  dateTo : Option Nat
deriving DecidableEq, Repr

/-- filterAccountsToCheck: the interval is computed as
checkIntervalDays * 1000 milliseconds, exactly as in the source. -/
def filterAccountsToCheck (checkIntervalDays : Nat) (now : Nat)
    (accounts : List AccountToTrack) : List AccountToTrack :=
  let intervalMs : Int := (checkIntervalDays : Int) * 1000
  accounts.filter fun account =>
    match account.lastChecked with
    | none => true
    | some t => decide ((now : Int) - (t : Int) ≥ intervalMs)

/-! ## Dates

A JS Date is its millisecond timestamp; setHours(0,0,0,0) truncates to the
start of the calendar day and setHours(23,59,59,999) moves to the last
millisecond of the day, with the local timezone taken as UTC. -/

def msPerDay : Nat := 86400000

def dayIndex (t : Nat) : Nat := t / msPerDay

def startOfDay (t : Nat) : Nat := dayIndex t * msPerDay

def endOfDay (t : Nat) : Nat := startOfDay t + (msPerDay - 1)

/-! ## Window aggregation (aggregateAccountMetrics of google-sheets.service.ts)

A metrics-sheet row is the slice of columns the aggregation reads: the
account label (column B), the video URL (column C), the post date (column
E, already parsed to a timestamp when present) and the four engagement
cells as raw strings. -/

structure SheetRow where
  account : Option String
  videoUrl : Option String
  postDate : Option Nat
  views : Option String
  likes : Option String
  comments : Option String
  shares : Option String
deriving DecidableEq, Repr

/-- The username token of the account URL: text after the first at-sign up
to the next slash, lowercased; undefined when the URL is absent or has no
at-sign. -/
def accountUsernameOf (url : Option String) : Option String :=
  match url with
  | none => none
  | some u =>
    match (splitChar '@' u.data).get? 1 with
    | none => none
    | some t =>
      some (String.mk (((splitChar '/' t).headD []).map jsLowerChar))

/-- The username token pulled out of the row's video URL; the empty string
both for the initial value and for URLs of platforms that embed no
username (the YouTube branch clears it explicitly). -/
def videoUsernameOf (rowVideoUrl : Option String) : String :=
  match rowVideoUrl with
  | none => ""
  | some u =>
    if u = "" then ""
    else
      let lower := toLowerStr u
      if jsIncludes lower "youtube.com" then ""
      else if jsIncludes lower "tiktok.com/@" then
        String.mk
          ((((splitChar '/' ((splitChar '@' u.data).getD 1 [])).headD []).map
            jsLowerChar))
      else if jsIncludes lower "vkvideo.ru/@" then
        String.mk
          ((((splitChar '/' ((splitChar '@' u.data).getD 1 [])).headD []).map
            jsLowerChar))
      else ""

/-- The matcher disjunction of the aggregation loop, in source order.  The
two partial-containment heuristics and the username-in-name heuristic call
toLowerCase on the row's account label after only a truthiness test on the
other side, so a missing label raises a TypeError there, modelled as the
error branch. -/
def rowIsMatch (acct : AccountToTrack) (rowAccount rowVideoUrl : Option String) :
    Except String Bool :=
  let accountUsername := accountUsernameOf acct.accountUrl
  let videoUsername := videoUsernameOf rowVideoUrl
  let exactNameMatch := rowAccount == acct.accountName
  let exactUrlMatch := rowAccount == acct.accountUrl
  let partialNameMatchE : Except String Bool :=
    if truthyS acct.accountName then
      match rowAccount with
      | none => Except.error "TypeError"
      | some ra =>
        Except.ok
          (jsIncludes (toLowerStr ra) (toLowerStr (acct.accountName.getD "")))
    else Except.ok false
  match partialNameMatchE with
  | Except.error e => Except.error e
  | Except.ok partialNameMatch =>
    let reversePartialMatchE : Except String Bool :=
      if truthyS acct.accountName then
        match rowAccount with
        | none => Except.error "TypeError"
        | some ra =>
          Except.ok
            (jsIncludes (toLowerStr (acct.accountName.getD "")) (toLowerStr ra))
      else Except.ok false
    match reversePartialMatchE with
    | Except.error e => Except.error e
    | Except.ok reversePartialMatch =>
      let usernameMatch :=
        truthyS accountUsername && (videoUsername ≠ "") &&
          (accountUsername == some videoUsername)
      let accountUsernameInNameE : Except String Bool :=
        if truthyS accountUsername then
          match rowAccount with
          | none => Except.error "TypeError"
          | some ra =>
            Except.ok (jsIncludes (toLowerStr ra) (accountUsername.getD ""))
        else Except.ok false
      match accountUsernameInNameE with
      | Except.error e => Except.error e
      | Except.ok accountUsernameInName =>
        Except.ok
          (exactNameMatch || exactUrlMatch || partialNameMatch ||
            reversePartialMatch || usernameMatch || accountUsernameInName)

structure RowStats where
  views : Option Int
  likes : Option Int
  comments : Option Int
  shares : Option Int
deriving DecidableEq, Repr

/-- The or-zero coercion v || 0 applied before parseInt: undefined and the
empty string give the string 0, any other string passes through. -/
def jsNumStrOrZero (v : Option String) : String :=
  match v with
  | none => "0"
  | some s => if s = "" then "0" else s

/-- One iteration of the aggregation loop: skip the row when both the
account cell and the video-URL cell are falsy, otherwise evaluate the
matcher (which may throw), then skip on no match or missing post date, and
count the row with its parsed engagement numbers when the post date lies in
the inclusive window. -/
def rowContribution (acct : AccountToTrack) (dFrom dTo : Nat) (row : SheetRow) :
    Except String (Option RowStats) :=
  if !truthyS row.account && !truthyS row.videoUrl then Except.ok none
  else
    match rowIsMatch acct row.account row.videoUrl with
    | Except.error e => Except.error e
    | Except.ok isMatch =>
      if !isMatch then Except.ok none
      else
        match row.postDate with
        | none => Except.ok none
        | some postDate =>
          if dFrom ≤ postDate ∧ postDate ≤ dTo then
            Except.ok (some
              { views := jsParseInt (jsNumStrOrZero row.views)
                likes := jsParseInt (jsNumStrOrZero row.likes)
                comments := jsParseInt (jsNumStrOrZero row.comments)
                shares := jsParseInt (jsNumStrOrZero row.shares) })
          else Except.ok none

def platformSheetName (p : String) : Option String :=
  if p = "tiktok" then some "Metrics TikTok"
  else if p = "youtube" then some "Metrics YouTube"
  else if p = "youtube-shorts" then some "Metrics YouTube-Shorts"
  else if p = "vk" then some "Metrics VK"
  else if p = "pinterest" then some "Metrics Pinterest"
  else if p = "instagram" then some "Metrics Instagram"
  else none

/-- Window resolution: both bounds must be present; reversed bounds are
swapped (comparison on full timestamps); then the lower bound is truncated
to the start of its day and the upper moved to the last millisecond of its
day. -/
def windowBounds (acct : AccountToTrack) : Option (Nat × Nat) :=
  match acct.dateFrom, acct.dateTo with
  | some df0, some dt0 =>
    let lo := if dt0 < df0 then dt0 else df0
    let hi := if dt0 < df0 then df0 else dt0
    some (startOfDay lo, endOfDay hi)
  | _, _ => none

/-- JS number addition where NaN (none) absorbs. -/
def jsAdd (a b : Option Int) : Option Int :=
  match a, b with
  | some x, some y => some (x + y)
  | _, _ => none

structure AccountGlobalMetric where
  platform : String
  accountUrl : Option String
  accountName : String
  dateFrom : Nat
  dateTo : Nat
  totalViews : Option Int
  totalLikes : Option Int
  totalComments : Option Int
  totalShares : Option Int
  videosCount : Nat
deriving DecidableEq, Repr

/-- The sequential aggregation loop over the sheet rows: the first raised
error aborts the whole loop. -/
def collectContribs (acct : AccountToTrack) (dFrom dTo : Nat) :
    List SheetRow → Except String (List (Option RowStats))
  | [] => Except.ok []
  | r :: rs =>
    match rowContribution acct dFrom dTo r with
    | Except.error e => Except.error e
    | Except.ok c =>
      match collectContribs acct dFrom dTo rs with
      | Except.error e => Except.error e
      | Except.ok cs => Except.ok (c :: cs)

/-- aggregateAccountMetrics as a pure function of the account and the rows
of its platform's metrics sheet: none when a window bound is missing, the
platform is unknown, the sheet is empty, a row raises (the outer catch
converts any error to null), or zero rows are counted; otherwise the fact
with the summed engagement numbers. -/
def aggregateAccountMetrics (acct : AccountToTrack) (rows : List SheetRow) :
    Option AccountGlobalMetric :=
  match windowBounds acct with
  | none => none
  | some (dFrom, dTo) =>
    match platformSheetName acct.platform with
    | none => none
    | some _ =>
      if rows.isEmpty then none
      else
        match collectContribs acct dFrom dTo rows with
        | Except.error _ => none
        | Except.ok contribs =>
          let counted := contribs.filterMap id
          if counted.length = 0 then none
          else
            some
              { platform := acct.platform
                accountUrl := acct.accountUrl
                accountName :=
                  match acct.accountName with
                  | some n => if n = "" then "Unknown" else n
                  | none => "Unknown"
                dateFrom := dFrom
                dateTo := dTo
                totalViews :=
                  counted.foldl (fun acc r => jsAdd acc r.views) (some 0)
                totalLikes :=
                  counted.foldl (fun acc r => jsAdd acc r.likes) (some 0)
                totalComments :=
                  counted.foldl (fun acc r => jsAdd acc r.comments) (some 0)
                totalShares :=
                  counted.foldl (fun acc r => jsAdd acc r.shares) (some 0)
                videosCount := counted.length }

/-! ## Facts-sheet upsert (writeAccountGlobalMetric of google-sheets.service.ts) -/

structure FactRow where
  platform : Option String
  accountUrl : Option String
  accountName : Option String
  dateFrom : Option Nat
  dateTo : Option Nat
  totalViews : Option Int
  totalLikes : Option Int
  totalComments : Option Int
  totalShares : Option Int
  videosCount : Option Nat
deriving DecidableEq, Repr

/-- The row written for a fact: both window dates are normalized to the
start of their day before being stored. -/
def metricRow (m : AccountGlobalMetric) : FactRow :=
  { platform := some m.platform
    accountUrl := m.accountUrl
    accountName := some m.accountName
    dateFrom := some (startOfDay m.dateFrom)
    dateTo := some (startOfDay m.dateTo)
    totalViews := m.totalViews
    totalLikes := m.totalLikes
    totalComments := m.totalComments
    totalShares := m.totalShares
    videosCount := some m.videosCount }

/-- The existing-row test of writeAccountGlobalMetric: platform and account
URL strictly equal, and both window dates equal after truncation to
date-only granularity; a missing date cell never matches (an invalid Date
compares unequal). -/
def factRowMatches (m : AccountGlobalMetric) (row : FactRow) : Bool :=
  (row.platform == some m.platform) &&
  (row.accountUrl == m.accountUrl) &&
  (match row.dateFrom with
    | none => false
    | some t => startOfDay t == startOfDay m.dateFrom) &&
  (match row.dateTo with
    | none => false
    | some t => startOfDay t == startOfDay m.dateTo)

/-- writeAccountGlobalMetric: replace the first row matching the fact's
identity in place, appending only when no row matches. -/
def writeAccountGlobalMetric : List FactRow → AccountGlobalMetric → List FactRow
  | [], m => [metricRow m]
  | r :: rs, m =>
    if factRowMatches m r then metricRow m :: rs
    else r :: writeAccountGlobalMetric rs m

/-- The caller-side step (metrics controller, collector): the fact is
written only when aggregation produced one. -/
def updateGlobalMetricStep (facts : List FactRow)
    (metricOpt : Option AccountGlobalMetric) : List FactRow :=
  match metricOpt with
  | none => facts
  | some m => writeAccountGlobalMetric facts m

/-- Identity of a fact per the spec: platform, account URL and the two
window dates at date-only granularity. -/
def sameFactIdentity (m m2 : AccountGlobalMetric) : Prop :=
  m.platform = m2.platform ∧ m.accountUrl = m2.accountUrl ∧
  startOfDay m.dateFrom = startOfDay m2.dateFrom ∧
  startOfDay m.dateTo = startOfDay m2.dateTo

instance : DecidablePred (fun p : AccountGlobalMetric × AccountGlobalMetric =>
    sameFactIdentity p.1 p.2) := fun _ => by
  unfold sameFactIdentity; infer_instance

/-! ## Normalizer fragment (parseTikTokAccount of apify-parser.service.ts)

Only the pure per-item logic the claims need: the article gate and the
numeric coercion of the four engagement fields.  Raw fields are the
already-stringified loose values, with none for undefined. -/

structure RawTikTokItem where
  text : Option String
  playCount : Option String
  diggCount : Option String
  commentCount : Option String
  shareCount : Option String
deriving DecidableEq, Repr

/-- String(itemData.text || ''). -/
def jsStrOrEmpty (v : Option String) : String :=
  match v with
  | none => ""
  | some s => s

def tiktokArticleOf (item : RawTikTokItem) : Option String :=
  findArticle (jsStrOrEmpty item.text) (jsStrOrEmpty item.text)

/-- The item survives the no-article gate (if (!article) continue). -/
def tiktokKept (item : RawTikTokItem) : Bool :=
  truthyS (tiktokArticleOf item)

def tiktokViewsOf (item : RawTikTokItem) : Option Int :=
  jsParseInt (jsNumStrOrZero item.playCount)

def tiktokLikesOf (item : RawTikTokItem) : Option Int :=
  jsParseInt (jsNumStrOrZero item.diggCount)

def tiktokCommentsOf (item : RawTikTokItem) : Option Int :=
  jsParseInt (jsNumStrOrZero item.commentCount)

def tiktokSharesOf (item : RawTikTokItem) : Option Int :=
  jsParseInt (jsNumStrOrZero item.shareCount)

/-! ## Concrete sample inputs used by the witnesses and counterexamples -/

/-- An account checked one hour before the reference instant, with a
three-day configured interval; 1700000000000 ms is 2023-11-14T22:13:20Z. -/
def acctHourAgo : AccountToTrack :=
  { platform := "tiktok", accountUrl := some "https://www.tiktok.com/@shop",
    accountName := some "shop", lastChecked := some 1699996400000,
    dateFrom := none, dateTo := none }

/-- The tracked account of the matcher-disjunction scenario: display name
and row label differ in case and punctuation. -/
def acctBrand : AccountToTrack :=
  { platform := "tiktok",
    accountUrl := some "https://platform.example/@brandofficial",
    accountName := some "Brand.Official", lastChecked := none,
    dateFrom := none, dateTo := none }

/-- An account with a resolvable two-day window (days 19675 to 19677 since
the epoch). -/
def acctWindowed : AccountToTrack :=
  { platform := "tiktok", accountUrl := some "https://www.tiktok.com/@shop",
    accountName := some "shop", lastChecked := none,
    dateFrom := some 1700000000000, dateTo := some 1700100000000 }

/-- A row of acctWindowed's platform sheet posted inside the window. -/
def rowInWindow : SheetRow :=
  { account := some "shop", videoUrl := none, postDate := some 1700050000000,
    views := some "10", likes := some "2", comments := none, shares := some "" }

/-- A matching row posted well after the window. -/
def rowOutsideWindow : SheetRow :=
  { account := some "shop", videoUrl := none, postDate := some 1800000000000,
    views := some "10", likes := some "2", comments := none, shares := some "" }

/-- A malformed row: the account cell is missing while the video URL is
present, so the substring heuristics dereference undefined. -/
def rowNoAccountCell : SheetRow :=
  { account := none, videoUrl := some "https://www.tiktok.com/@shop/video/1",
    postDate := some 1700050000000, views := some "1", likes := some "1",
    comments := some "1", shares := some "1" }

/-- A fact as produced by aggregation over acctWindowed's window. -/
def factSample : AccountGlobalMetric :=
  { platform := "tiktok", accountUrl := some "https://www.tiktok.com/@shop",
    accountName := "shop", dateFrom := 1699920000000, dateTo := 1700179199999,
    totalViews := some 20, totalLikes := some 4, totalComments := some 0,
    totalShares := some 0, videosCount := 2 }

/-- A raw item whose text carries no article and no qualifying start
token. -/
def itemBuyNow : RawTikTokItem :=
  { text := some "Buy now!", playCount := some "5", diggCount := some "1",
    commentCount := some "0", shareCount := some "0" }

/-- A raw item whose play count is present but unparseable. -/
def itemBadViews : RawTikTokItem :=
  { text := some "Check out WB204512!", playCount := some "abc",
    diggCount := none, commentCount := some "", shareCount := some "7" }

/-- A raw item with a missing play count. -/
def itemNoViews : RawTikTokItem :=
  { text := some "Check out WB204512!", playCount := none,
    diggCount := some "1", commentCount := some "2", shareCount := some "3" }

/-- A raw item with a parseable play count. -/
def itemSevenViews : RawTikTokItem :=
  { text := some "Check out WB204512!", playCount := some "7",
    diggCount := some "1", commentCount := some "2", shareCount := some "3" }

/-! ## Helper lemmas on day arithmetic -/

theorem startOfDay_le_self (t : Nat) : startOfDay t ≤ t := by
  unfold startOfDay dayIndex
  exact Nat.div_mul_le_self t msPerDay

theorem startOfDay_idem (t : Nat) : startOfDay (startOfDay t) = startOfDay t := by
  unfold startOfDay dayIndex msPerDay
  omega

theorem startOfDay_eq_of_day_eq {p t : Nat} (h : dayIndex p = dayIndex t) :
    startOfDay p = startOfDay t := by
  unfold startOfDay
  rw [h]

theorem le_endOfDay_of_day_eq {p t : Nat} (h : dayIndex p = dayIndex t) :
    p ≤ endOfDay t := by
  unfold endOfDay startOfDay dayIndex msPerDay at *
  omega

theorem endOfDay_lt_of_day_succ {p t : Nat} (h : dayIndex p = dayIndex t + 1) :
    endOfDay t < p := by
  unfold endOfDay startOfDay dayIndex msPerDay at *
  omega

theorem startOfDay_le_of_day_le {f p : Nat} (h : dayIndex f ≤ dayIndex p) :
    startOfDay f ≤ p := by
  unfold startOfDay dayIndex msPerDay at *
  omega

theorem windowBounds_eq {acct : AccountToTrack} {f t : Nat}
    (hf : acct.dateFrom = some f) (ht : acct.dateTo = some t)
    (hd : dayIndex f ≤ dayIndex t) :
    windowBounds acct = some (startOfDay f, endOfDay t) := by
  unfold windowBounds
  rw [hf, ht]
  by_cases hlt : t < f
  · have hdt : dayIndex t ≤ dayIndex f := by
      unfold dayIndex
      exact Nat.div_le_div_right (le_of_lt hlt)
    have heq : dayIndex t = dayIndex f := le_antisymm hdt hd
    have h1 : startOfDay t = startOfDay f := startOfDay_eq_of_day_eq heq
    have h2 : endOfDay f = endOfDay t := by
      unfold endOfDay
      rw [h1]
    simp [hlt, h1, h2]
  · simp [hlt]

/-! ## Claim C1 -/

/-- Claim C1 (code bug): filterAccountsToCheck multiplies checkIntervalDays
by only 1000 (seconds, not days), so an account last checked one hour
before the reference instant is selected as due under a three-day
configured interval, although one hour is far less than three days. -/
theorem filterAccountsToCheck_seconds_bug :
    filterAccountsToCheck 3 1700000000000 [acctHourAgo] = [acctHourAgo] ∧
    (1700000000000 - 1699996400000 : Int) < 3 * 86400000 := by
  decide

/-! ## Claim C4 -/

/-- Claim C4: generateMetricId is a pure deterministic function of its
three arguments, the spec scenario key evaluates to tiktok-SHO-WB204512,
and extractArticle on the scenario text yields WB204512. -/
theorem generateMetricId_deterministic_scenario :
    (∀ p a r p2 a2 r2 : String, p = p2 → a = a2 → r = r2 →
      generateMetricId p a r = generateMetricId p2 a2 r2) ∧
    generateMetricId "tiktok" "shopbrand" "WB204512" = "tiktok-SHO-WB204512" ∧
    extractArticle "Check out WB204512!" = some "WB204512" := by
  refine ⟨?_, by decide, by decide⟩
  intro p a r p2 a2 r2 hp ha hr
  rw [hp, ha, hr]

/-- Witness for claim C4 at the concrete spec scenario. -/
theorem generateMetricId_deterministic_scenario_witness :
    generateMetricId "tiktok" "shopbrand" "WB204512" =
      generateMetricId "tiktok" "shopbrand" "WB204512" :=
  generateMetricId_deterministic_scenario.1 "tiktok" "shopbrand" "WB204512"
    "tiktok" "shopbrand" "WB204512" rfl rfl rfl

/-! ## Claim C5 -/

/-- Claim C5 counterexample: an account name with exactly one alphanumeric
character yields a one-character middle segment, not a three-character
one: the XXX fallback fires only on the empty cleaned name. -/
theorem firstThree_not_padded :
    generateMetricId "tiktok" "a" "WB1" = "tiktok-A-WB1" ∧
    (firstThreeOf "a").length = 1 := by
  decide

/-- Claim C5 amended: the middle segment is the sentinel XXX (three
characters) only when the account name retains zero alphanumeric
characters; when it retains k of them the segment has min 3 k characters,
so one or two alphanumeric characters yield a segment of that same
length. -/
theorem firstThree_length (name : String) :
    ((firstThreeOf name).length =
      if (name.data.filter isAlnumAscii).length = 0 then 3
      else min 3 (name.data.filter isAlnumAscii).length) ∧
    ∀ p a, generateMetricId p name a =
      p ++ "-" ++ firstThreeOf name ++ "-" ++ cleanArticleStr a := by
  constructor
  · unfold firstThreeOf
    cases hc : name.data.filter isAlnumAscii with
    | nil =>
      simp only [List.take_nil, List.map_nil, List.length_nil, if_pos rfl]
      rfl
    | cons c cs =>
      have hne : String.mk (((c :: cs).take 3).map jsUpperChar) ≠ "" := by
        simp [String.ext_iff, List.take_cons]
      simp only [hne, if_neg hne]
      show (String.mk (((c :: cs).take 3).map jsUpperChar)).length = _
      have hlen : (String.mk (((c :: cs).take 3).map jsUpperChar)).length =
          (((c :: cs).take 3).map jsUpperChar).length := rfl
      rw [hlen, List.length_map, List.length_take]
      simp
  · intro p a
    rfl

/-! ## Claim C9 -/

/-- Claim C9: the row label BrandOfficial matches the tracked account with
URL https://platform.example/@brandofficial through the username-token
substring heuristic: the token after the at-sign (brandofficial) is a
case-insensitive substring of the label, even though the declared display
name Brand.Official fails both partial-containment heuristics. -/
theorem matcher_username_substring :
    rowIsMatch acctBrand (some "BrandOfficial") none = Except.ok true ∧
    accountUsernameOf acctBrand.accountUrl = some "brandofficial" ∧
    jsIncludes (toLowerStr "BrandOfficial") "brandofficial" = true ∧
    jsIncludes (toLowerStr "BrandOfficial") (toLowerStr "Brand.Official") = false ∧
    jsIncludes (toLowerStr "Brand.Official") (toLowerStr "BrandOfficial") = false := by
  decide

/-! ## Helper lemmas for the facts-sheet upsert -/

theorem factRowMatches_metricRow {m m2 : AccountGlobalMetric}
    (h : sameFactIdentity m m2) : factRowMatches m2 (metricRow m) = true := by
  obtain ⟨h1, h2, h3, h4⟩ := h
  simp [factRowMatches, metricRow, startOfDay_idem, h1, h2, h3, h4]

theorem metricRow_mem_write (rows : List FactRow) (m : AccountGlobalMetric) :
    metricRow m ∈ writeAccountGlobalMetric rows m := by
  induction rows with
  | nil => simp [writeAccountGlobalMetric]
  | cons r rs ih =>
    unfold writeAccountGlobalMetric
    by_cases h : factRowMatches m r
    · simp [h]
    · simp [h, ih]

theorem write_length_of_exists {rows : List FactRow} {m : AccountGlobalMetric}
    (h : ∃ r ∈ rows, factRowMatches m r = true) :
    (writeAccountGlobalMetric rows m).length = rows.length := by
  induction rows with
  | nil => simp at h
  | cons r rs ih =>
    unfold writeAccountGlobalMetric
    by_cases hm : factRowMatches m r
    · simp [hm]
    · have hrest : ∃ x ∈ rs, factRowMatches m x = true := by
        obtain ⟨x, hx, hfx⟩ := h
        rcases List.mem_cons.mp hx with rfl | hx2
        · exact absurd hfx (by simp [hm])
        · exact ⟨x, hx2, hfx⟩
      simp [hm, ih hrest]

theorem write_append_of_no_match {rows : List FactRow} {m : AccountGlobalMetric}
    (h : ∀ r ∈ rows, factRowMatches m r = false) :
    writeAccountGlobalMetric rows m = rows ++ [metricRow m] := by
  induction rows with
  | nil => rfl
  | cons r rs ih =>
    have hr := h r (List.mem_cons_self r rs)
    unfold writeAccountGlobalMetric
    simp [hr, ih (fun x hx => h x (List.mem_cons_of_mem r hx))]

/-! ## Claim C3 -/

/-- Claim C3: writeAccountGlobalMetric updates the first facts row whose
platform, account URL and date-normalized window match the fact's identity
(preserving the number of rows), appends exactly when no row matches, and
therefore a second recomputation for the same identity never produces a
second row. -/
theorem writeAccountGlobalMetric_upsert (rows : List FactRow)
    (m m2 : AccountGlobalMetric) :
    ((∃ r ∈ rows, factRowMatches m r = true) →
      (writeAccountGlobalMetric rows m).length = rows.length) ∧
    ((∀ r ∈ rows, factRowMatches m r = false) →
      writeAccountGlobalMetric rows m = rows ++ [metricRow m]) ∧
    (sameFactIdentity m m2 →
      (writeAccountGlobalMetric (writeAccountGlobalMetric rows m) m2).length =
        (writeAccountGlobalMetric rows m).length) := by
  refine ⟨write_length_of_exists, write_append_of_no_match, ?_⟩
  intro hid
  exact write_length_of_exists
    ⟨metricRow m, metricRow_mem_write rows m, factRowMatches_metricRow hid⟩

/-- Witness for claim C3: writing the sample fact twice, starting from the
empty facts sheet, leaves exactly the one row the first write appended. -/
theorem writeAccountGlobalMetric_upsert_witness :
    sameFactIdentity factSample factSample ∧
    (∃ r ∈ [metricRow factSample], factRowMatches factSample r = true) ∧
    (writeAccountGlobalMetric [metricRow factSample] factSample).length = 1 ∧
    (writeAccountGlobalMetric (writeAccountGlobalMetric [] factSample)
        factSample).length = (writeAccountGlobalMetric [] factSample).length := by
  refine ⟨⟨rfl, rfl, rfl, rfl⟩, ⟨metricRow factSample, by decide, by decide⟩, ?_, ?_⟩
  · exact (writeAccountGlobalMetric_upsert [metricRow factSample] factSample
      factSample).1 ⟨metricRow factSample, by decide, by decide⟩
  · exact (writeAccountGlobalMetric_upsert [] factSample factSample).2.2
      ⟨rfl, rfl, rfl, rfl⟩

/-! ## Helper lemma for the aggregation loop -/

theorem rowContribution_of_match {acct : AccountToTrack} {row : SheetRow}
    (dF dT : Nat) {p : Nat}
    (hne : (truthyS row.account || truthyS row.videoUrl) = true)
    (hm : rowIsMatch acct row.account row.videoUrl = Except.ok true)
    (hp : row.postDate = some p) :
    rowContribution acct dF dT row =
      if dF ≤ p ∧ p ≤ dT then
        Except.ok (some
          { views := jsParseInt (jsNumStrOrZero row.views)
            likes := jsParseInt (jsNumStrOrZero row.likes)
            comments := jsParseInt (jsNumStrOrZero row.comments)
            shares := jsParseInt (jsNumStrOrZero row.shares) })
      else Except.ok none := by
  have hguard : (!truthyS row.account && !truthyS row.videoUrl) = false := by
    cases h1 : truthyS row.account <;> cases h2 : truthyS row.videoUrl <;>
      simp_all
  unfold rowContribution
  rw [hguard, hm, hp]
  simp

/-! ## Claim C2 -/

/-- Claim C2: for an account whose bounds resolve in calendar order, the
normalized window is the start of windowFrom's day to the last millisecond
of windowTo's day, and a matcher-accepted row with a post date is counted
exactly when its date lies in that inclusive range: any time of day on
windowTo's date is counted, one day later is not. -/
theorem aggregate_window_inclusive (acct : AccountToTrack) (f t : Nat)
    (hf : acct.dateFrom = some f) (ht : acct.dateTo = some t)
    (hd : dayIndex f ≤ dayIndex t) :
    windowBounds acct = some (startOfDay f, endOfDay t) ∧
    ∀ (row : SheetRow) (p : Nat), row.postDate = some p →
      rowIsMatch acct row.account row.videoUrl = Except.ok true →
      (truthyS row.account || truthyS row.videoUrl) = true →
      ((∃ c, rowContribution acct (startOfDay f) (endOfDay t) row =
          Except.ok (some c)) ↔ startOfDay f ≤ p ∧ p ≤ endOfDay t) ∧
      (dayIndex p = dayIndex t →
        ∃ c, rowContribution acct (startOfDay f) (endOfDay t) row =
          Except.ok (some c)) ∧
      (dayIndex p = dayIndex t + 1 →
        rowContribution acct (startOfDay f) (endOfDay t) row =
          Except.ok none) := by
  refine ⟨windowBounds_eq hf ht hd, ?_⟩
  intro row p hp hm hne
  have hc := rowContribution_of_match (startOfDay f) (endOfDay t) hne hm hp
  refine ⟨?_, ?_, ?_⟩
  · rw [hc]
    by_cases hin : startOfDay f ≤ p ∧ p ≤ endOfDay t
    · simp [hin]
    · simp [hin]
  · intro hday
    have h1 : startOfDay f ≤ p := startOfDay_le_of_day_le (by omega)
    have h2 : p ≤ endOfDay t := le_endOfDay_of_day_eq hday
    rw [hc]
    simp [h1, h2]
  · intro hday
    have h3 : endOfDay t < p := endOfDay_lt_of_day_succ hday
    rw [hc]
    have : ¬(startOfDay f ≤ p ∧ p ≤ endOfDay t) := by omega
    simp [this]

/-- Witness for claim C2: the in-window sample row of the sample windowed
account is counted. -/
theorem aggregate_window_inclusive_witness :
    ∃ c, rowContribution acctWindowed (startOfDay 1700000000000)
      (endOfDay 1700100000000) rowInWindow = Except.ok (some c) :=
  ((aggregate_window_inclusive acctWindowed 1700000000000 1700100000000 rfl rfl
      (by decide)).2 rowInWindow 1700050000000 rfl (by decide)
      (by decide)).1.mpr (by decide)

/-! ## Helper lemmas for the aggregation result -/

theorem collectContribs_all_none (acct : AccountToTrack) (dF dT : Nat)
    (rows : List SheetRow)
    (h : ∀ r ∈ rows, rowContribution acct dF dT r = Except.ok none) :
    collectContribs acct dF dT rows =
      Except.ok (rows.map fun _ => (none : Option RowStats)) := by
  induction rows with
  | nil => rfl
  | cons r rs ih =>
    unfold collectContribs
    rw [h r (List.mem_cons_self r rs),
      ih (fun x hx => h x (List.mem_cons_of_mem r hx))]
    rfl

theorem filterMap_id_map_none (l : List SheetRow) :
    ((l.map fun _ => (none : Option RowStats)).filterMap id) = [] := by
  induction l with
  | nil => rfl
  | cons r rs ih => simp [ih]

/-! ## Claim C8 -/

/-- Claim C8: when the window resolves but no stored row both matches the
account and falls inside the window (every row's contribution is counted
as nothing), aggregateAccountMetrics returns none rather than a
zero-valued fact, and consequently the caller-side step leaves the facts
sheet unchanged. -/
theorem aggregate_none_of_zero_matches (acct : AccountToTrack)
    (rows : List SheetRow) (dFrom dTo : Nat)
    (hw : windowBounds acct = some (dFrom, dTo))
    (h : ∀ r ∈ rows, rowContribution acct dFrom dTo r = Except.ok none) :
    aggregateAccountMetrics acct rows = none ∧
    ∀ facts : List FactRow,
      updateGlobalMetricStep facts (aggregateAccountMetrics acct rows) =
        facts := by
  have hagg : aggregateAccountMetrics acct rows = none := by
    have hcc := collectContribs_all_none acct dFrom dTo rows h
    unfold aggregateAccountMetrics
    rw [hw]
    by_cases hre : rows.isEmpty
    · cases hps : platformSheetName acct.platform <;> simp [hre]
    · cases hps : platformSheetName acct.platform with
      | none => simp
      | some sn => simp [hre, hcc, filterMap_id_map_none]
  exact ⟨hagg, fun facts => by rw [hagg]; rfl⟩

/-- Witness for claim C8: the sample account whose only stored row lies
outside the window aggregates to none and writes nothing. -/
theorem aggregate_none_of_zero_matches_witness :
    aggregateAccountMetrics acctWindowed [rowOutsideWindow] = none ∧
    updateGlobalMetricStep [metricRow factSample]
      (aggregateAccountMetrics acctWindowed [rowOutsideWindow]) =
      [metricRow factSample] := by
  have h := aggregate_none_of_zero_matches acctWindowed [rowOutsideWindow]
    1699920000000 1700179199999 (by decide)
    (by
      intro r hr
      rw [List.mem_singleton.mp hr]
      decide)
  exact ⟨h.1, h.2 [metricRow factSample]⟩

/-! ## Helper lemmas for the malformed-row behavior -/

theorem rowIsMatch_error_of_missing_label {acct : AccountToTrack} {nm : String}
    (hn : acct.accountName = some nm) (hn2 : nm ≠ "")
    (rowVideoUrl : Option String) :
    rowIsMatch acct none rowVideoUrl = Except.error "TypeError" := by
  have ht : truthyS acct.accountName = true := by
    rw [hn]
    simp [truthyS, hn2]
  unfold rowIsMatch
  simp [ht]

theorem rowContribution_error_of_missing_label {acct : AccountToTrack}
    {row : SheetRow} {nm u : String} (dF dT : Nat)
    (hn : acct.accountName = some nm) (hn2 : nm ≠ "")
    (ha : row.account = none) (hv : row.videoUrl = some u) (hu : u ≠ "") :
    rowContribution acct dF dT row = Except.error "TypeError" := by
  have hguard : (!truthyS row.account && !truthyS row.videoUrl) = false := by
    rw [hv]
    simp [truthyS, hu]
  unfold rowContribution
  rw [hguard, ha, rowIsMatch_error_of_missing_label hn hn2 row.videoUrl]
  rfl

theorem collectContribs_error_of_mem (acct : AccountToTrack) (dF dT : Nat)
    {rows : List SheetRow} {r : SheetRow} (hr : r ∈ rows) {e : String}
    (he : rowContribution acct dF dT r = Except.error e) :
    ∃ e2, collectContribs acct dF dT rows = Except.error e2 := by
  induction rows with
  | nil => cases hr
  | cons a l ih =>
    unfold collectContribs
    cases ha : rowContribution acct dF dT a with
    | error e3 => exact ⟨e3, rfl⟩
    | ok c =>
      rcases List.mem_cons.mp hr with rfl | hmem
      · rw [ha] at he
        cases he
      · obtain ⟨e2, h2⟩ := ih hmem
        rw [h2]
        exact ⟨e2, rfl⟩

/-! ## Claim C10 -/

/-- Claim C10: if the tracked account has a non-empty display name and the
sheet contains a row whose account cell is missing while its video URL is
non-empty, the whole aggregation returns none no matter what the other
rows hold: the row passes the both-empty guard, the partial-containment
heuristic dereferences the missing label and raises, and the outer catch
converts the error to null. -/
theorem aggregate_none_of_malformed_row (acct : AccountToTrack)
    (rows : List SheetRow) (r : SheetRow) (nm u : String)
    (hn : acct.accountName = some nm) (hn2 : nm ≠ "")
    (hr : r ∈ rows) (ha : r.account = none) (hv : r.videoUrl = some u)
    (hu : u ≠ "") :
    aggregateAccountMetrics acct rows = none := by
  unfold aggregateAccountMetrics
  cases hw : windowBounds acct with
  | none => rfl
  | some bounds =>
    obtain ⟨dF, dT⟩ := bounds
    obtain ⟨e2, h2⟩ := collectContribs_error_of_mem acct dF dT hr
      (rowContribution_error_of_missing_label dF dT hn hn2 ha hv hu)
    have hne : rows.isEmpty = false := by
      cases rows with
      | nil => cases hr
      | cons x xs => rfl
    cases hps : platformSheetName acct.platform with
    | none => simp
    | some sn => simp [hne, h2]

/-- Witness for claim C10: one malformed row next to a matching in-window
row makes the whole aggregation none, although the same rows without the
malformed one aggregate to a fact. -/
theorem aggregate_none_of_malformed_row_witness :
    aggregateAccountMetrics acctWindowed [rowInWindow, rowNoAccountCell] =
      none ∧
    aggregateAccountMetrics acctWindowed [rowInWindow] ≠ none := by
  constructor
  · exact aggregate_none_of_malformed_row acctWindowed
      [rowInWindow, rowNoAccountCell] rowNoAccountCell "shop"
      "https://www.tiktok.com/@shop/video/1" rfl (by decide)
      (by simp [rowInWindow, rowNoAccountCell]) rfl rfl (by decide)
  · decide

/-! ## Claim C6 -/

/-- Claim C6 counterexample: on the spec's no-recognizable-code example the
extractor does return an article: the start-of-text fallback accepts the
five-letter opening token, yielding GREAT instead of no article. -/
theorem extractArticle_great_product :
    extractArticle "Great product, buy now!" = some "GREAT" := by
  decide

/-- Claim C6 amended: the text Great product, buy now! yields the article
GREAT through the start-of-text fallback (so the record is kept); a text
with neither a pattern-family match nor a qualifying start token, such as
Buy now!, yields no article, and the TikTok normalizer then skips the item
without an error. -/
theorem extractArticle_no_article_drop :
    extractArticle "Great product, buy now!" = some "GREAT" ∧
    extractArticle "Buy now!" = none ∧
    ∀ item : RawTikTokItem,
      tiktokArticleOf item = none → tiktokKept item = false := by
  refine ⟨by decide, by decide, ?_⟩
  intro item h
  unfold tiktokKept
  rw [h]
  rfl

/-- Witness for claim C6 at the concrete no-article item. -/
theorem extractArticle_no_article_drop_witness :
    tiktokArticleOf itemBuyNow = none ∧ tiktokKept itemBuyNow = false :=
  ⟨by decide, extractArticle_no_article_drop.2.2 itemBuyNow (by decide)⟩

/-! ## Claim C7 -/

/-- Claim C7 counterexample: a present but unparseable play count string is
coerced by parseInt to NaN (modelled none), not to zero, so the produced
item carries a non-numeric views value. -/
theorem tiktokViews_nan :
    tiktokViewsOf itemBadViews = none ∧ (none : Option Int) ≠ some 0 := by
  decide

/-- Claim C7 amended: a missing or empty source value coerces to zero and a
parseable value to its parsed integer, but a present unparseable value
coerces to NaN, which the produced item carries; all four engagement
fields use the same coercion. -/
theorem numeric_coercion_amended :
    (∀ item : RawTikTokItem, item.playCount = none →
      tiktokViewsOf item = some 0) ∧
    (∀ item : RawTikTokItem, item.playCount = some "" →
      tiktokViewsOf item = some 0) ∧
    (∀ (item : RawTikTokItem) (s : String) (n : Int), item.playCount = some s →
      jsParseInt s = some n → tiktokViewsOf item = some n) ∧
    (∀ item : RawTikTokItem,
      tiktokViewsOf item = jsParseInt (jsNumStrOrZero item.playCount) ∧
      tiktokLikesOf item = jsParseInt (jsNumStrOrZero item.diggCount) ∧
      tiktokCommentsOf item = jsParseInt (jsNumStrOrZero item.commentCount) ∧
      tiktokSharesOf item = jsParseInt (jsNumStrOrZero item.shareCount)) ∧
    (∃ item : RawTikTokItem, tiktokViewsOf item = none) := by
  refine ⟨?_, ?_, ?_, fun item => ⟨rfl, rfl, rfl, rfl⟩, ⟨itemBadViews, by decide⟩⟩
  · intro item h
    unfold tiktokViewsOf jsNumStrOrZero
    rw [h]
    rfl
  · intro item h
    unfold tiktokViewsOf jsNumStrOrZero
    rw [h]
    rfl
  · intro item s n hs hp
    unfold tiktokViewsOf jsNumStrOrZero
    rw [hs]
    by_cases hse : s = ""
    · subst hse
      have hnone : jsParseInt "" = none := by decide
      rw [hnone] at hp
      cases hp
    · simp [hse, hp]

/-- Witness for claim C7 at concrete items with a missing and a parseable
play count. -/
theorem numeric_coercion_amended_witness :
    tiktokViewsOf itemNoViews = some 0 ∧ tiktokViewsOf itemSevenViews = some 7 :=
  ⟨numeric_coercion_amended.1 itemNoViews rfl,
    numeric_coercion_amended.2.2.1 itemSevenViews "7" 7 rfl (by decide)⟩
